import Mathlib

/-!
Verification development for the octasphere mesh generator found in the
repository's Kotlin utilities (the `generateOctasphere` function and its
helpers).  The geometry is embedded over the real numbers: every Kotlin
`Float` value and every `Float3`/`Float4` component becomes a real number,
and the Kotlin trigonometric functions become `Real.sin`, `Real.cos` and
`Real.arccos`.  Kotlin `Int` counters, which stay far below any overflow
bound in this code, are embedded as `ℕ` (or `ℤ` where the source value can
be negative, namely the requested subdivision count before clamping).
Arrays that the source fills sequentially become Lean lists written in the
same order.  The two `assert` statements of the source and the assert in
`TriangleArray.toBuffer` become explicit propositions, stated separately
from the value-level functions (mirroring JVM semantics, where the
computation itself proceeds regardless of the assertion).
-/

set_option maxRecDepth 4000

namespace Octasphere

/-- Embedding of the Kotlin `Float3` vector type (components as reals). -/
@[ext]
structure Float3 where
  x : ℝ
  y : ℝ
  z : ℝ

/-- Embedding of the Kotlin `Float4` quaternion type (components as reals). -/
@[ext]
structure Float4 where
  x : ℝ
  y : ℝ
  z : ℝ
  w : ℝ

/-- Componentwise scalar multiplication, `Float3 * Float` in kotlin-math. -/
def Float3.smul (v : Float3) (s : ℝ) : Float3 :=
  ⟨v.x * s, v.y * s, v.z * s⟩

/-- Componentwise vector addition, `Float3 + Float3` in kotlin-math. -/
def Float3.add (a b : Float3) : Float3 :=
  ⟨a.x + b.x, a.y + b.y, a.z + b.z⟩

/-- The kotlin-math dot product of two `Float3` values. -/
def dot (a b : Float3) : ℝ :=
  a.x * b.x + a.y * b.y + a.z * b.z

/-- The kotlin-math cross product of two `Float3` values. -/
def cross (a b : Float3) : Float3 :=
  ⟨a.y * b.z - a.z * b.y, a.z * b.x - a.x * b.z, a.x * b.y - a.y * b.x⟩

/-- Squared Euclidean norm of a `Float3`; `dot v v`.  Used to state the
unit-length properties of the spec. -/
def sqNorm (v : Float3) : ℝ :=
  dot v v

/-- The `xyz` swizzle of a `Float4`, as used by `quaternionRotateVector`. -/
def Float4.xyz (q : Float4) : Float3 :=
  ⟨q.x, q.y, q.z⟩

/-- Embedding of the source function `quaternionFromRotation(axis, radians)`:
`Float4(axis * sin(0.5f * radians), cos(0.5f * radians))`.  Note the source
does not normalize `axis`.  (The Lean name adds the `Angle` suffix to the
source name `quaternionFromRotation`.) -/
noncomputable def quaternionFromRotationAngle (axis : Float3) (radians : ℝ) : Float4 :=
  ⟨(axis.smul (Real.sin (0.5 * radians))).x,
   (axis.smul (Real.sin (0.5 * radians))).y,
   (axis.smul (Real.sin (0.5 * radians))).z,
   Real.cos (0.5 * radians)⟩

/-- Embedding of the source function `quaternionRotateVector(quaternion, src)`:
`t = cross(q.xyz, src) * 2; p = cross(q.xyz, t); t * q.w + src + p`. -/
def quaternionRotateVector (quaternion : Float4) (src : Float3) : Float3 :=
  let t := (cross quaternion.xyz src).smul 2
  let p := cross quaternion.xyz t
  ((t.smul quaternion.w).add src).add p

/-- Embedding of the source function `quaternionFromEulers(eulers)`, the
roll/pitch/yaw-to-quaternion formula used to rotate the first patch into the
other seven octants. -/
noncomputable def quaternionFromEulers (eulers : Float3) : Float4 :=
  let roll := eulers.x
  let pitch := eulers.y
  let yaw := eulers.z
  let sR := Real.sin (roll * 0.5)
  let cR := Real.cos (roll * 0.5)
  let sP := Real.sin (pitch * 0.5)
  let cP := Real.cos (pitch * 0.5)
  let sY := Real.sin (yaw * 0.5)
  let cY := Real.cos (yaw * 0.5)
  ⟨sR * cP * cY + cR * sP * sY,
   cR * sP * cY - sR * cP * sY,
   cR * cP * sY + sR * sP * cY,
   cR * cP * cY - sR * sP * sY⟩

/-- The source constant `FPI` (the float approximation of pi, embedded as
the real number pi). -/
noncomputable def FPI : ℝ :=
  Real.pi

/-- Embedding of kotlin-math `clamp(x, min, max)` on `Int`. -/
def clamp (x minValue maxValue : ℤ) : ℤ :=
  if x < minValue then minValue else if x > maxValue then maxValue else x

/-- The source constant `kOctasphereMaxSubdivisions = 5`. -/
def kOctasphereMaxSubdivisions : ℤ := 5

/-- The source constant `kFloatSize = 4`. -/
def kFloatSize : ℕ := 4

/-- The source constant `kOctaspherePositionSize = 3 * kFloatSize`. -/
def kOctaspherePositionSize : ℕ := 3 * kFloatSize

/-- The source constant `kOctasphereTangentSize = 4 * kFloatSize`. -/
def kOctasphereTangentSize : ℕ := 4 * kFloatSize

/-- The source constant `kOctasphereIndexSize = 2`. -/
def kOctasphereIndexSize : ℕ := 2

/-- The clamped subdivision level: `clamp(subdivisions, 0, kOctasphereMaxSubdivisions)`
from `generateOctasphere`, converted to `ℕ` (the clamp guarantees the value
is non-negative). -/
def actualSubdivisions (subdivisions : ℤ) : ℕ :=
  (clamp subdivisions 0 kOctasphereMaxSubdivisions).toNat

/-- `verticesPerLine = 1.shl(divisions) + 1` as a function of the clamped level. -/
def verticesPerLine (divisions : ℕ) : ℕ :=
  2 ^ divisions + 1

/-- `verticesPerPatch = verticesPerLine * (verticesPerLine + 1) / 2`. -/
def verticesPerPatch (divisions : ℕ) : ℕ :=
  verticesPerLine divisions * (verticesPerLine divisions + 1) / 2

/-- `trianglesPerPatch = (verticesPerLine - 2) * (verticesPerLine - 1) + verticesPerLine - 1`. -/
def trianglesPerPatch (divisions : ℕ) : ℕ :=
  (verticesPerLine divisions - 2) * (verticesPerLine divisions - 1) + verticesPerLine divisions - 1

/-- `totalVertices = verticesPerPatch * 8`. -/
def totalVertices (divisions : ℕ) : ℕ :=
  verticesPerPatch divisions * 8

/-- `numConnectionQuads = (4 + 4 + 4) * (verticesPerLine - 1) + 6`. -/
def numConnectionQuads (divisions : ℕ) : ℕ :=
  (4 + 4 + 4) * (verticesPerLine divisions - 1) + 6

/-- `totalIndices = (trianglesPerPatch * 8 + numConnectionQuads * 2) * 3`. -/
def totalIndices (divisions : ℕ) : ℕ :=
  (trianglesPerPatch divisions * 8 + numConnectionQuads divisions * 2) * 3

/-- The index triples written by one iteration of the column loop in
`generateIndices`, for the column starting at `j0` with height `colHeight`:
the inner row loop writes the two triangles `(j0+row, j1+row, j2+row)` and
`(j2+row, j1+row, j3+row)` for `row < colHeight - 1`, and the final row
writes the single triangle `(j0+row, j1+row, j2+row)` with
`j1 = j0 + 1`, `j2 = j0 + colHeight + 1`, `j3 = j0 + colHeight + 2`. -/
def columnTriangles (j0 colHeight : ℕ) : List ℕ :=
  ((List.range (colHeight - 1)).flatMap fun row =>
    [j0 + row, j0 + 1 + row, j0 + colHeight + 1 + row,
     j0 + colHeight + 1 + row, j0 + 1 + row, j0 + colHeight + 2 + row])
  ++ [j0 + (colHeight - 1), j0 + 1 + (colHeight - 1), j0 + colHeight + 1 + (colHeight - 1)]

/-- The column loop of `generateIndices`, iterating `colIndex` from `0` to
`verticesPerLine - 2`.  The first argument is the current column height
`colHeight = verticesPerLine - 1 - colIndex` (which decreases from
`verticesPerLine - 1` down to `1`), the second is the running start index
`j0` (updated to `j2 = j0 + colHeight + 1` after each column). -/
def patchColumns : ℕ → ℕ → List ℕ
  | 0, _ => []
  | n + 1, j0 => columnTriangles j0 (n + 1) ++ patchColumns n (j0 + (n + 1) + 1)

/-- The flat index list written for the first patch by `generateIndices`. -/
def firstPatchIndices (vpl : ℕ) : List ℕ :=
  patchColumns (vpl - 1) 0

/-- All indices written by `generateIndices`: the first patch, then for each
`octant in 1 until 8` a copy of the first `indicesPerPatch` array slots
shifted by `verticesPerPatch * octant` (the source reads
`triangles.data[i]`, embedded as `getD i 0` since `IntArray` slots default
to zero). -/
def writtenIndices (divisions : ℕ) : List ℕ :=
  let vpp := verticesPerPatch divisions
  let indicesPerPatch := trianglesPerPatch divisions * 3
  let fp := firstPatchIndices (verticesPerLine divisions)
  fp ++ (List.range 7).flatMap fun octant =>
    (List.range indicesPerPatch).map fun i => fp.getD i 0 + vpp * (octant + 1)

/-- Size of the backing `IntArray` of `TriangleArray(totalIndices / 3)`:
the constructor allocates `count * 3` slots. -/
def triangleDataSize (divisions : ℕ) : ℕ :=
  totalIndices divisions / 3 * 3

/-- The contents of `TriangleArray.data` after `generateIndices` runs: the
sequentially written indices followed by the untouched zero-initialized
slots reserved for the unfinished seam quads. -/
def triangleData (divisions : ℕ) : List ℕ :=
  writtenIndices divisions
    ++ List.replicate (triangleDataSize divisions - (writtenIndices divisions).length) 0

/-- The assertion `assert(triangles.index == triangles.data.size)` at the end
of `generateIndices`: it holds exactly when the number of written index slots
fills the whole backing array. -/
def generateIndicesAssertHolds (divisions : ℕ) : Prop :=
  (writtenIndices divisions).length = triangleDataSize divisions

/-- The assertion `assert(i <= Short.MAX_VALUE)` performed for every array
element inside `TriangleArray.toBuffer` (`Short.MAX_VALUE = 32767`). -/
def triangleToBufferAssertHolds (data : List ℕ) : Prop :=
  ∀ i ∈ data, i ≤ 32767

/-- Embedding of `writeGeodesic(positions, pointA, pointB, numSegments)`,
returning the list of points it appends: `pointA`; if `numSegments == 0`
nothing else; otherwise the interpolated points
`quaternionRotateVector(quaternionFromRotation(axis, delta * i), pointA)`
for `i in 1 until numSegments` (with `delta = acos(dot(pointA, pointB)) / numSegments`
and `axis = cross(pointA, pointB)`), followed by `pointB`. -/
noncomputable def writeGeodesic (pointA pointB : Float3) (numSegments : ℕ) : List Float3 :=
  if numSegments = 0 then [pointA]
  else
    let angleBetweenEndpoints := Real.arccos (dot pointA pointB)
    let delta := angleBetweenEndpoints / (numSegments : ℝ)
    let axis := cross pointA pointB
    [pointA]
      ++ ((List.range (numSegments - 1)).map fun (i : ℕ) =>
            quaternionRotateVector (quaternionFromRotationAngle axis (delta * ((i : ℝ) + 1))) pointA)
      ++ [pointB]

/-- The first one-eighth patch tessellated by the row loop of
`generateUnitSphere`: for `i in 0 until verticesPerLine`, with
`theta = FPI * 0.5f * i / (verticesPerLine - 1)`, it writes the geodesic
from `(0, sin theta, cos theta)` to `(cos theta, sin theta, 0)` using
`numSegments = verticesPerLine - 1 - i`. -/
noncomputable def unitSpherePatch (vpl : ℕ) : List Float3 :=
  (List.range vpl).flatMap fun i =>
    let theta := FPI * 0.5 * (i : ℝ) / ((vpl - 1 : ℕ) : ℝ)
    writeGeodesic ⟨0, Real.sin theta, Real.cos theta⟩ ⟨Real.cos theta, Real.sin theta, 0⟩
      (vpl - 1 - i)

/-- The `octants` table of Euler-angle multipliers from `generateUnitSphere`. -/
def octantsTable : ℕ → Float3
  | 0 => ⟨0, 0, 0⟩
  | 1 => ⟨0, 1, 0⟩
  | 2 => ⟨0, 2, 0⟩
  | 3 => ⟨0, 3, 0⟩
  | 4 => ⟨1, 0, 0⟩
  | 5 => ⟨1, 0, 1⟩
  | 6 => ⟨1, 0, 2⟩
  | 7 => ⟨1, 0, 3⟩
  | _ => ⟨0, 0, 0⟩

/-- The per-octant rotation quaternion
`quaternionFromEulers(octants[octant] * 0.5f * FPI)`. -/
noncomputable def octantQuat (octant : ℕ) : Float4 :=
  quaternionFromEulers (((octantsTable octant).smul 0.5).smul FPI)

/-- The body of `generateUnitSphere` after its internal clamp: the first
patch followed, for each `octant in 1 until 8`, by the rotated copy of the
first `verticesPerPatch` array slots (the source reads `positions.data[i]`,
embedded as `getD i ⟨0,0,0⟩` since `Float3()` slots default to zero). -/
noncomputable def unitSphereLevel (divisions : ℕ) : List Float3 :=
  let vpl := verticesPerLine divisions
  let vpp := verticesPerPatch divisions
  let patch := unitSpherePatch vpl
  patch ++ (List.range 7).flatMap fun octant =>
    (List.range vpp).map fun i =>
      quaternionRotateVector (octantQuat (octant + 1)) (patch.getD i ⟨0, 0, 0⟩)

/-- Embedding of `generateUnitSphere(positions, subdivisions)`: the function
first clamps its argument with `clamp(subdivisions, 0, kOctasphereMaxSubdivisions)`
and then tessellates at the clamped level. -/
noncomputable def generateUnitSphere (subdivisions : ℤ) : List Float3 :=
  unitSphereLevel (clamp subdivisions 0 kOctasphereMaxSubdivisions).toNat

/-- The assertion `assert(positions.index == positions.data.size)` at the end
of `generateUnitSphere`: the number of written vertices fills the
`VertexArray(totalVertices)` allocated by `generateOctasphere`. -/
def generateUnitSphereAssertHolds (subdivisions : ℤ) : Prop :=
  (generateUnitSphere subdivisions).length
    = totalVertices (clamp subdivisions 0 kOctasphereMaxSubdivisions).toNat

/-- Embedding of `applyScale(positions, scale)`: multiplies every component
of every stored vertex by `scale` in place. -/
def applyScale (positions : List Float3) (scale : ℝ) : List Float3 :=
  positions.map fun v => ⟨v.x * scale, v.y * scale, v.z * scale⟩

/-- Embedding of `translateCorners(positions, dimensions, radius, subdivisions)`.
The source computes
`r2 = radius * 2`, `width = max(dimensions.x, r2)`, `height = max(dimensions.y, r2)`,
`depth = max(dimensions.z, r2)`, `tx = (width - r2) / 2`, `ty = (height - r2) / 2`,
`tz = (depth - r2) / 2`, but the loop that would add these offsets to the
vertices is commented out (a `TODO`), so the function never modifies
`positions`. -/
def translateCorners (positions : List Float3) (dimensions : Float3) (radius : ℝ)
    (subdivisions : ℤ) : List Float3 :=
  let r2 := radius * 2
  let width := max dimensions.x r2
  let height := max dimensions.y r2
  let depth := max dimensions.z r2
  let tx := (width - r2) / 2
  let ty := (height - r2) / 2
  let tz := (depth - r2) / 2
  positions

/-- Model of a `java.nio.ByteBuffer` in native byte order: its allocated
capacity in bytes, the float32 values written into it via `putFloat`
(4 bytes each), and the 16-bit values written via `putShort` (2 bytes each,
recorded as their unsigned 16-bit interpretation). -/
structure ByteBuffer where
  capacity : ℕ
  floats : List ℝ
  shorts : List ℕ

/-- Embedding of `VertexArray.toBuffer`: allocates
`data.size * kOctaspherePositionSize` bytes and writes `v.x, v.y, v.z` for
each stored vertex, in order. -/
def vertexArrayToBuffer (data : List Float3) : ByteBuffer :=
  ⟨data.length * kOctaspherePositionSize, data.flatMap fun v => [v.x, v.y, v.z], []⟩

/-- Embedding of `TriangleArray.toBuffer`: allocates
`data.size * kOctasphereIndexSize` bytes and writes `i.toShort()` for each
stored index, in order (the stored 16-bit pattern equals `i % 65536`).  The
per-element assertion is modelled by `triangleToBufferAssertHolds`. -/
def triangleArrayToBuffer (data : List ℕ) : ByteBuffer :=
  ⟨data.length * kOctasphereIndexSize, [], data.map fun i => i % 65536⟩

/-- Embedding of the Kotlin `OctasphereMesh` data class. -/
structure OctasphereMesh where
  numVertices : ℕ
  numIndices : ℕ
  positions : ByteBuffer
  tangents : ByteBuffer
  indices : ByteBuffer

/-- The vertex list whose flattening becomes the positions buffer of
`generateOctasphere`: the unit sphere at the clamped level, scaled by
`radius` via `applyScale`, then passed through `translateCorners`. -/
noncomputable def octaspherePositions (dimensions : Float3) (radius : ℝ)
    (subdivisions : ℤ) : List Float3 :=
  translateCorners
    (applyScale (generateUnitSphere (clamp subdivisions 0 kOctasphereMaxSubdivisions)) radius)
    dimensions radius (clamp subdivisions 0 kOctasphereMaxSubdivisions)

/-- Embedding of `generateOctasphere(dimensions, radius, subdivisions)`:
clamps the subdivision count, builds the positions, tangent placeholder and
index buffers, and returns them together with `totalVertices` and
`totalIndices`. -/
noncomputable def generateOctasphere (dimensions : Float3) (radius : ℝ)
    (subdivisions : ℤ) : OctasphereMesh :=
  let actual := actualSubdivisions subdivisions
  { numVertices := totalVertices actual
    numIndices := totalIndices actual
    positions := vertexArrayToBuffer (octaspherePositions dimensions radius subdivisions)
    tangents := ⟨totalVertices actual * kOctasphereTangentSize, [], []⟩
    indices := triangleArrayToBuffer (triangleData actual) }

/-- The divisors of the floating-point division performed by `writeGeodesic`:
`delta = angleBetweenEndpoints / numSegments` is evaluated only after the
`numSegments == 0` early return, so a call contributes no divisor when
`numSegments = 0`. -/
def writeGeodesicDivisors (numSegments : ℕ) : List ℝ :=
  if numSegments = 0 then [] else [(numSegments : ℝ)]

/-- The divisors of every floating-point division performed during
`generateUnitSphere`: for each row, the divisor `verticesPerLine - 1` of the
`theta` computation, followed by the divisor of the `delta` computation of
the `writeGeodesic` call for that row (when it divides at all). -/
noncomputable def generateUnitSphereDivisors (subdivisions : ℤ) : List ℝ :=
  let vpl := verticesPerLine (clamp subdivisions 0 kOctasphereMaxSubdivisions).toNat
  (List.range vpl).flatMap fun i =>
    ((vpl - 1 : ℕ) : ℝ) :: writeGeodesicDivisors (vpl - 1 - i)

/-- The divisors of the floating-point divisions in `translateCorners`:
`tx`, `ty` and `tz` each divide by the literal `2` (the `max(dimension, r2)`
guard feeds the numerator, never a divisor). -/
def translateCornersDivisors : List ℝ :=
  [2, 2, 2]

/-- The divisors of every floating-point division performed during a call
`generateOctasphere(dimensions, radius, subdivisions)`. -/
noncomputable def octasphereDivisors (dimensions : Float3) (radius : ℝ)
    (subdivisions : ℤ) : List ℝ :=
  generateUnitSphereDivisors (clamp subdivisions 0 kOctasphereMaxSubdivisions)
    ++ translateCornersDivisors

/-- The six vertices of the regular octahedron inscribed in the unit sphere. -/
def octahedronVertices : List Float3 :=
  [⟨1, 0, 0⟩, ⟨-1, 0, 0⟩, ⟨0, 1, 0⟩, ⟨0, -1, 0⟩, ⟨0, 0, 1⟩, ⟨0, 0, -1⟩]

theorem writeGeodesic_length (pointA pointB : Float3) (numSegments : ℕ) :
    (writeGeodesic pointA pointB numSegments).length = numSegments + 1 := by
  unfold writeGeodesic
  split
  · simp_all
  · rw [List.length_append, List.length_append, List.length_map, List.length_range]
    simp only [List.length_cons, List.length_nil]
    omega

theorem sum_range_desc (n : ℕ) :
    ∑ i ∈ Finset.range n, (n - 1 - i + 1) = n * (n + 1) / 2 := by
  rw [Finset.sum_range_reflect (fun j => j + 1) n]
  have h := Finset.sum_range_id_mul_two (n + 1)
  rw [Finset.sum_range_succ'] at h
  simp only [add_zero] at h
  have h2 : (n + 1) * (n + 1 - 1) = n * (n + 1) := by
    simp only [Nat.add_sub_cancel]
    ring
  rw [h2] at h
  omega

theorem unitSpherePatch_length (vpl : ℕ) :
    (unitSpherePatch vpl).length = vpl * (vpl + 1) / 2 := by
  unfold unitSpherePatch
  rw [List.length_flatMap]
  simp only [Function.comp_def, writeGeodesic_length]
  rw [show ((List.range vpl).map fun i => vpl - 1 - i + 1).sum
      = ∑ i ∈ Finset.range vpl, (vpl - 1 - i + 1) from rfl]
  exact sum_range_desc vpl

theorem unitSphereLevel_length (divisions : ℕ) :
    (unitSphereLevel divisions).length = totalVertices divisions := by
  unfold unitSphereLevel
  rw [List.length_append, List.length_flatMap]
  simp only [Function.comp_def, List.length_map, List.length_range, unitSpherePatch_length]
  rw [List.map_const', List.sum_replicate, List.length_range]
  simp only [smul_eq_mul]
  unfold totalVertices verticesPerPatch
  generalize verticesPerLine divisions * (verticesPerLine divisions + 1) = E
  omega

theorem generateUnitSphere_length (subdivisions : ℤ) :
    generateUnitSphereAssertHolds subdivisions := by
  unfold generateUnitSphereAssertHolds generateUnitSphere
  exact unitSphereLevel_length _

theorem clamp_idem (x : ℤ) :
    clamp (clamp x 0 kOctasphereMaxSubdivisions) 0 kOctasphereMaxSubdivisions
      = clamp x 0 kOctasphereMaxSubdivisions := by
  unfold clamp kOctasphereMaxSubdivisions
  split_ifs <;> omega

theorem actualSubdivisions_le (subdivisions : ℤ) :
    actualSubdivisions subdivisions ≤ 5 := by
  unfold actualSubdivisions clamp kOctasphereMaxSubdivisions
  split_ifs <;> omega

theorem columnTriangles_length (j0 colHeight : ℕ) :
    (columnTriangles j0 colHeight).length = 6 * (colHeight - 1) + 3 := by
  unfold columnTriangles
  rw [List.length_append, List.length_flatMap]
  simp [Function.comp_def]
  omega

theorem patchColumns_length (n : ℕ) : ∀ j0 : ℕ,
    (patchColumns n j0).length = 3 * n ^ 2 := by
  induction n with
  | zero => intro j0; simp [patchColumns]
  | succ m ih =>
    intro j0
    unfold patchColumns
    rw [List.length_append, columnTriangles_length, ih]
    simp only [Nat.add_sub_cancel]
    ring

theorem trianglesPerPatch_sq (divisions : ℕ) :
    trianglesPerPatch divisions = (verticesPerLine divisions - 1) ^ 2 := by
  obtain ⟨k, hk⟩ : ∃ k, verticesPerLine divisions = k + 2 := by
    have h1 : 1 ≤ 2 ^ divisions := Nat.one_le_two_pow
    exact ⟨2 ^ divisions - 1, by unfold verticesPerLine; omega⟩
  unfold trianglesPerPatch
  rw [hk]
  simp only [Nat.add_sub_cancel]
  have h3 : k + 2 - 1 = k + 1 := by omega
  rw [h3]
  have h4 : k * (k + 1) + (k + 2) - 1 = k * (k + 1) + (k + 1) := by omega
  rw [h4]
  ring

theorem writtenIndices_length (divisions : ℕ) :
    (writtenIndices divisions).length = trianglesPerPatch divisions * 8 * 3 := by
  unfold writtenIndices firstPatchIndices
  rw [List.length_append, List.length_flatMap]
  simp only [Function.comp_def, List.length_map, List.length_range, patchColumns_length]
  rw [List.map_const', List.sum_replicate, List.length_range]
  simp only [smul_eq_mul]
  rw [trianglesPerPatch_sq]
  ring

theorem triangleDataSize_eq (divisions : ℕ) :
    triangleDataSize divisions = totalIndices divisions := by
  unfold triangleDataSize totalIndices
  generalize trianglesPerPatch divisions = T
  generalize numConnectionQuads divisions = Q
  omega

theorem writtenIndices_length_le (divisions : ℕ) :
    (writtenIndices divisions).length ≤ triangleDataSize divisions := by
  rw [writtenIndices_length, triangleDataSize_eq]
  unfold totalIndices
  generalize numConnectionQuads divisions = Q
  generalize trianglesPerPatch divisions = T
  omega

theorem triangleData_length (divisions : ℕ) :
    (triangleData divisions).length = totalIndices divisions := by
  unfold triangleData
  rw [List.length_append, List.length_replicate, ← triangleDataSize_eq]
  have h := writtenIndices_length_le divisions
  omega

theorem vertexFloats_length (l : List Float3) :
    (l.flatMap fun v => [v.x, v.y, v.z]).length = l.length * 3 := by
  rw [List.length_flatMap]
  simp [Function.comp_def]

theorem columnTriangles_le (j0 m : ℕ) :
    ∀ x ∈ columnTriangles j0 (m + 1), x ≤ j0 + 2 * (m + 1) := by
  intro x hx
  unfold columnTriangles at hx
  simp only [Nat.add_sub_cancel, List.mem_append, List.mem_flatMap, List.mem_range,
    List.mem_cons, List.not_mem_nil, or_false] at hx
  rcases hx with ⟨row, hrow, hv⟩ | hv <;> omega

theorem patchColumns_le (n : ℕ) : ∀ j0 : ℕ, ∀ x ∈ patchColumns n j0,
    2 * x ≤ 2 * j0 + n * (n + 3) := by
  induction n with
  | zero => intro j0 x hx; simp [patchColumns] at hx
  | succ m ih =>
    intro j0 x hx
    unfold patchColumns at hx
    rw [List.mem_append] at hx
    have e1 : (m + 1) * (m + 1 + 3) = m * (m + 3) + 2 * (m + 2) := by ring
    have e2 : (m + 1) * (m + 1 + 3) = 4 * (m + 1) + m * (m + 1) := by ring
    rcases hx with hx | hx
    · have := columnTriangles_le j0 m x hx
      omega
    · have := ih (j0 + (m + 1) + 1) x hx
      omega

theorem firstPatch_lt_vpp (divisions : ℕ) :
    ∀ x ∈ firstPatchIndices (verticesPerLine divisions), x < verticesPerPatch divisions := by
  intro x hx
  obtain ⟨k, hk⟩ : ∃ k, verticesPerLine divisions = k + 1 := by
    have h1 : 1 ≤ 2 ^ divisions := Nat.one_le_two_pow
    exact ⟨2 ^ divisions, by unfold verticesPerLine; omega⟩
  unfold firstPatchIndices at hx
  rw [hk] at hx
  simp only [Nat.add_sub_cancel] at hx
  have hb := patchColumns_le k 0 x hx
  have hdvd : 2 ∣ (k + 1) * (k + 1 + 1) := (Nat.even_mul_succ_self (k + 1)).two_dvd
  have hdiv := Nat.div_mul_cancel hdvd
  have e1 : (k + 1) * (k + 1 + 1) = k * (k + 3) + 2 := by ring
  unfold verticesPerPatch
  rw [hk]
  omega

theorem writtenIndices_lt (divisions : ℕ) :
    ∀ x ∈ writtenIndices divisions, x < totalVertices divisions := by
  intro x hx
  unfold writtenIndices at hx
  simp only [List.mem_append, List.mem_flatMap, List.mem_range, List.mem_map] at hx
  have hvpp : 1 ≤ verticesPerPatch divisions := by
    have h1 : 1 ≤ 2 ^ divisions := Nat.one_le_two_pow
    have h2 : 2 ≤ verticesPerLine divisions := by unfold verticesPerLine; omega
    have h3 : 2 * 3 ≤ verticesPerLine divisions * (verticesPerLine divisions + 1) :=
      Nat.mul_le_mul h2 (by omega)
    unfold verticesPerPatch
    omega
  unfold totalVertices
  rcases hx with hx | ⟨octant, hoct, i, hi, hv⟩
  · have := firstPatch_lt_vpp divisions x hx
    omega
  · have hgd : (firstPatchIndices (verticesPerLine divisions)).getD i 0
        < verticesPerPatch divisions := by
      rcases Nat.lt_or_ge i (firstPatchIndices (verticesPerLine divisions)).length with h | h
      · rw [List.getD_eq_getElem _ 0 h]
        exact firstPatch_lt_vpp divisions _ (List.getElem_mem h)
      · rw [List.getD_eq_default _ 0 h]
        omega
    have hmul : verticesPerPatch divisions * (octant + 1) ≤ verticesPerPatch divisions * 7 :=
      Nat.mul_le_mul_left _ (by omega)
    omega

theorem triangleData_lt (divisions : ℕ) :
    ∀ x ∈ triangleData divisions, x < totalVertices divisions := by
  intro x hx
  unfold triangleData at hx
  rw [List.mem_append] at hx
  rcases hx with hx | hx
  · exact writtenIndices_lt divisions x hx
  · have hz := List.eq_of_mem_replicate hx
    subst hz
    have h1 : 1 ≤ 2 ^ divisions := Nat.one_le_two_pow
    have h2 : 2 ≤ verticesPerLine divisions := by unfold verticesPerLine; omega
    have h3 : 2 * 3 ≤ verticesPerLine divisions * (verticesPerLine divisions + 1) :=
      Nat.mul_le_mul h2 (by omega)
    unfold totalVertices verticesPerPatch
    omega

theorem totalVertices_le_4488 (divisions : ℕ) (hd : divisions ≤ 5) :
    totalVertices divisions ≤ 4488 := by
  interval_cases divisions <;> decide

theorem actualSubdivisions_nat (d : ℕ) (hd : d ≤ 5) :
    actualSubdivisions (d : ℤ) = d := by
  unfold actualSubdivisions clamp kOctasphereMaxSubdivisions
  split_ifs <;> omega

/-- Claim C4: for every subdivision argument greater than 5, `generateOctasphere`
behaves exactly as if the argument were 5 (the value is silently clamped and the
call does not fail), and the effective level satisfies
`verticesPerLine = 2 ^ level + 1` with `level ≤ 5`. -/
theorem c4_subdivisions_clamped (dimensions : Float3) (radius : ℝ) (subdivisions : ℤ)
    (h : 5 < subdivisions) :
    generateOctasphere dimensions radius subdivisions = generateOctasphere dimensions radius 5
      ∧ actualSubdivisions subdivisions ≤ 5
      ∧ verticesPerLine (actualSubdivisions subdivisions)
          = 2 ^ actualSubdivisions subdivisions + 1 := by
  have h1 : clamp subdivisions 0 kOctasphereMaxSubdivisions = 5 := by
    unfold clamp kOctasphereMaxSubdivisions
    split_ifs <;> omega
  have h2 : clamp (5 : ℤ) 0 kOctasphereMaxSubdivisions = 5 := by decide
  refine ⟨?_, actualSubdivisions_le subdivisions, rfl⟩
  unfold generateOctasphere octaspherePositions actualSubdivisions
  rw [h1, h2]

/-- Witness for C4 at the concrete input `dimensions = 0`, `radius = 1`,
`subdivisions = 9`. -/
theorem c4_subdivisions_clamped_witness :
    generateOctasphere ⟨0, 0, 0⟩ 1 9 = generateOctasphere ⟨0, 0, 0⟩ 1 5
      ∧ actualSubdivisions 9 ≤ 5
      ∧ verticesPerLine (actualSubdivisions 9) = 2 ^ actualSubdivisions 9 + 1 :=
  c4_subdivisions_clamped ⟨0, 0, 0⟩ 1 9 (by decide)

/-- Claim C10: the positions buffer returned by `generateOctasphere` is identical
for all values of the `dimensions` argument, because `translateCorners` computes
its offsets but never modifies any vertex position. -/
theorem c10_positions_ignore_dimensions (dims1 dims2 : Float3) (radius : ℝ)
    (subdivisions : ℤ) :
    (generateOctasphere dims1 radius subdivisions).positions
      = (generateOctasphere dims2 radius subdivisions).positions := rfl

/-- Counterexample to claim C2 as stated: at subdivision level 0 the returned
`numIndices` is 132 (it reserves slots for the seam-connection quads), not
`trianglesPerPatch * 8 * 3 = 24`. -/
theorem c2_level0_numIndices_counterexample :
    (generateOctasphere ⟨0, 0, 0⟩ 1 0).numIndices = 132
      ∧ trianglesPerPatch (actualSubdivisions 0) * 8 * 3 = 24
      ∧ (generateOctasphere ⟨0, 0, 0⟩ 1 0).numIndices
          ≠ trianglesPerPatch (actualSubdivisions 0) * 8 * 3 := by
  refine ⟨rfl, rfl, ?_⟩
  decide

/-- Claim C2, amended: for every level in 0..5 the returned `numIndices` equals
`(trianglesPerPatch * 8 + numConnectionQuads * 2) * 3`; the number of index
slots actually written by `generateIndices` equals `trianglesPerPatch * 8 * 3`;
and every index in the index array lies within `[0, vertexCount)`. -/
theorem c2_index_counts_amended (dimensions : Float3) (radius : ℝ) (d : ℕ) (hd : d ≤ 5) :
    (generateOctasphere dimensions radius (d : ℤ)).numIndices
        = (trianglesPerPatch d * 8 + numConnectionQuads d * 2) * 3
      ∧ (writtenIndices d).length = trianglesPerPatch d * 8 * 3
      ∧ ∀ i ∈ triangleData d, i < totalVertices d := by
  refine ⟨?_, writtenIndices_length d, triangleData_lt d⟩
  show totalIndices (actualSubdivisions (d : ℤ))
      = (trianglesPerPatch d * 8 + numConnectionQuads d * 2) * 3
  rw [actualSubdivisions_nat d hd]
  rfl

/-- Witness for C2 (amended) at the concrete level 2. -/
theorem c2_index_counts_amended_witness :
    (generateOctasphere ⟨0, 0, 0⟩ 1 ((2 : ℕ) : ℤ)).numIndices
        = (trianglesPerPatch 2 * 8 + numConnectionQuads 2 * 2) * 3
      ∧ (writtenIndices 2).length = trianglesPerPatch 2 * 8 * 3
      ∧ ∀ i ∈ triangleData 2, i < totalVertices 2 :=
  c2_index_counts_amended ⟨0, 0, 0⟩ 1 2 (by decide)

/-- Claim C3: every index stored in the triangle array satisfies
`index ≤ 32767 = Short.MAX_VALUE` (hence `index ≤ 65535`), so the assertion in
`TriangleArray.toBuffer` holds and the 16-bit values written to the output
index buffer equal the stored indices without truncation. -/
theorem c3_indices_fit_16bit (dimensions : Float3) (radius : ℝ) (subdivisions : ℤ) :
    triangleToBufferAssertHolds (triangleData (actualSubdivisions subdivisions))
      ∧ (∀ i ∈ triangleData (actualSubdivisions subdivisions), i ≤ 65535)
      ∧ (generateOctasphere dimensions radius subdivisions).indices.shorts
          = triangleData (actualSubdivisions subdivisions) := by
  have h5 := actualSubdivisions_le subdivisions
  have hassert : triangleToBufferAssertHolds (triangleData (actualSubdivisions subdivisions)) := by
    intro i hi
    have h1 := triangleData_lt (actualSubdivisions subdivisions) i hi
    have h2 := totalVertices_le_4488 (actualSubdivisions subdivisions) h5
    omega
  refine ⟨hassert, fun i hi => le_trans (hassert i hi) (by norm_num), ?_⟩
  show (triangleData (actualSubdivisions subdivisions)).map (fun i => i % 65536)
      = triangleData (actualSubdivisions subdivisions)
  conv_rhs => rw [← List.map_id (triangleData (actualSubdivisions subdivisions))]
  apply List.map_congr_left
  intro i hi
  exact Nat.mod_eq_of_lt (lt_of_le_of_lt (hassert i hi) (by norm_num))

/-- Claim C9 fails on the code: the completeness assertion at the end of
`generateIndices` (`triangles.index == triangles.data.size`) fails for every
input, because the seam-quad indices are never generated (at level 0 only 24 of
the 132 reserved slots are written).  The assertion in `generateUnitSphere`
does hold. -/
theorem c9_generateIndices_assert_fails :
    ¬ generateIndicesAssertHolds (actualSubdivisions 0)
      ∧ (writtenIndices (actualSubdivisions 0)).length = 24
      ∧ triangleDataSize (actualSubdivisions 0) = 132
      ∧ generateUnitSphereAssertHolds 0 := by
  refine ⟨?_, by decide, by decide, generateUnitSphere_length 0⟩
  unfold generateIndicesAssertHolds
  decide

/-- Claim C8: the three returned buffers are sized exactly to the returned
counts: the positions buffer has capacity `numVertices * 12` bytes and holds
`numVertices * 3` packed float32 values, the tangents buffer has capacity
`numVertices * 16` bytes, and the index buffer has capacity `numIndices * 2`
bytes and holds exactly `numIndices` 16-bit values. -/
theorem c8_buffer_sizes (dimensions : Float3) (radius : ℝ) (subdivisions : ℤ) :
    ((generateOctasphere dimensions radius subdivisions).positions.capacity
        = (generateOctasphere dimensions radius subdivisions).numVertices
            * kOctaspherePositionSize)
      ∧ (generateOctasphere dimensions radius subdivisions).positions.floats.length
          = (generateOctasphere dimensions radius subdivisions).numVertices * 3
      ∧ (generateOctasphere dimensions radius subdivisions).tangents.capacity
          = (generateOctasphere dimensions radius subdivisions).numVertices
              * kOctasphereTangentSize
      ∧ (generateOctasphere dimensions radius subdivisions).indices.capacity
          = (generateOctasphere dimensions radius subdivisions).numIndices
              * kOctasphereIndexSize
      ∧ (generateOctasphere dimensions radius subdivisions).indices.shorts.length
          = (generateOctasphere dimensions radius subdivisions).numIndices := by
  have hpos : (octaspherePositions dimensions radius subdivisions).length
      = totalVertices (actualSubdivisions subdivisions) := by
    simp only [octaspherePositions, translateCorners, applyScale, generateUnitSphere,
      List.length_map, clamp_idem]
    exact unitSphereLevel_length _
  refine ⟨?_, ?_, rfl, ?_, ?_⟩
  · show (octaspherePositions dimensions radius subdivisions).length * kOctaspherePositionSize
        = totalVertices (actualSubdivisions subdivisions) * kOctaspherePositionSize
    rw [hpos]
  · show ((octaspherePositions dimensions radius subdivisions).flatMap
        fun v => [v.x, v.y, v.z]).length
        = totalVertices (actualSubdivisions subdivisions) * 3
    rw [vertexFloats_length, hpos]
  · show (triangleData (actualSubdivisions subdivisions)).length * kOctasphereIndexSize
        = totalIndices (actualSubdivisions subdivisions) * kOctasphereIndexSize
    rw [triangleData_length]
  · show ((triangleData (actualSubdivisions subdivisions)).map fun i => i % 65536).length
        = totalIndices (actualSubdivisions subdivisions)
    rw [List.length_map, triangleData_length]

/-- Claim C7: for every input, including degenerate shapes with `radius = 0`
or zero dimension components, `generateOctasphere` performs no division by
zero: every divisor reached during execution (the `theta` divisor
`verticesPerLine - 1`, the geodesic `delta` divisor guarded by the
`numSegments = 0` early return, and the constant divisors of the translation
offsets) is nonzero. -/
theorem c7_no_division_by_zero (dimensions : Float3) (radius : ℝ) (subdivisions : ℤ) :
    ∀ d ∈ octasphereDivisors dimensions radius subdivisions, d ≠ 0 := by
  intro d hd
  unfold octasphereDivisors generateUnitSphereDivisors translateCornersDivisors at hd
  simp only [List.mem_append, List.mem_flatMap, List.mem_range, List.mem_cons,
    List.not_mem_nil, or_false] at hd
  rcases hd with ⟨i, hi, hd | hd⟩ | hd | hd | hd
  · subst hd
    have h1 : verticesPerLine (clamp (clamp subdivisions 0 kOctasphereMaxSubdivisions) 0
        kOctasphereMaxSubdivisions).toNat - 1
        = 2 ^ (clamp (clamp subdivisions 0 kOctasphereMaxSubdivisions) 0
            kOctasphereMaxSubdivisions).toNat := by
      unfold verticesPerLine
      have hp : 1 ≤ 2 ^ (clamp (clamp subdivisions 0 kOctasphereMaxSubdivisions) 0
          kOctasphereMaxSubdivisions).toNat := Nat.one_le_two_pow
      omega
    rw [h1]
    exact_mod_cast (Nat.pos_iff_ne_zero.mp (Nat.two_pow_pos _))
  · unfold writeGeodesicDivisors at hd
    split at hd
    · simp at hd
    · rename_i hn
      simp only [List.mem_cons, List.not_mem_nil, or_false] at hd
      subst hd
      exact_mod_cast hn
  · subst hd; norm_num
  · subst hd; norm_num
  · subst hd; norm_num

/-- Witness for C7: the translation-offset divisor `2` is among the divisors
of the run with `dimensions = 0`, `radius = 1`, `subdivisions = 0`, and it is
nonzero. -/
theorem c7_no_division_by_zero_witness :
    (2 : ℝ) ∈ octasphereDivisors ⟨0, 0, 0⟩ 1 0 ∧ (2 : ℝ) ≠ 0 := by
  have hm : (2 : ℝ) ∈ octasphereDivisors ⟨0, 0, 0⟩ 1 0 := by
    show (2 : ℝ) ∈ generateUnitSphereDivisors (clamp 0 0 kOctasphereMaxSubdivisions)
        ++ translateCornersDivisors
    apply List.mem_append_right
    simp [translateCornersDivisors]
  exact ⟨hm, c7_no_division_by_zero ⟨0, 0, 0⟩ 1 0 2 hm⟩

/-- The squared norm of a point produced by rotating a unit vector `pointA`
with the quaternion built by `quaternionFromRotation` from the
un-normalized axis `cross pointA pointB`: because the source never
normalizes the axis, the result deviates from the unit sphere by
`4 sin(phi/2)^4 s2 (1 - s2)` where `s2` is the squared length of the axis. -/
theorem sqNorm_geodesic_rotate (pA pB : Float3) (phi : ℝ) (hA : sqNorm pA = 1) :
    sqNorm (quaternionRotateVector (quaternionFromRotationAngle (cross pA pB) phi) pA)
      = 1 - 4 * Real.sin (0.5 * phi) ^ 4 * sqNorm (cross pA pB)
          * (1 - sqNorm (cross pA pB)) := by
  obtain ⟨ax, ay, az⟩ := pA
  obtain ⟨bx, b2, bz⟩ := pB
  have hsc := Real.sin_sq_add_cos_sq (0.5 * phi)
  simp only [quaternionRotateVector, quaternionFromRotationAngle, cross, dot, sqNorm,
    Float3.smul, Float3.add, Float4.xyz] at hA ⊢
  linear_combination ((ax ^ 2 + ay ^ 2 + az ^ 2) * 4 * Real.sin (0.5 * phi) ^ 2 *
      ((ay * bz - az * b2) ^ 2 + (az * bx - ax * bz) ^ 2 + (ax * b2 - ay * bx) ^ 2)) * hsc
    + (1 - 4 * Real.sin (0.5 * phi) ^ 4 *
        ((ay * bz - az * b2) ^ 2 + (az * bx - ax * bz) ^ 2 + (ax * b2 - ay * bx) ^ 2)
        * (1 - ((ay * bz - az * b2) ^ 2 + (az * bx - ax * bz) ^ 2
            + (ax * b2 - ay * bx) ^ 2))) * hA

/-- Claim C5 fails on the code (code bug): `writeGeodesic` interpolates with a
quaternion built from the un-normalized axis `cross(pointA, pointB)`, so for
the unit endpoints `(0, 3/5, 4/5)` and `(0, 1, 0)` with `numSegments = 2` the
interpolated midpoint has squared norm strictly below 1 instead of lying on
the unit sphere as the documentation of `writeGeodesic` states. -/
theorem c5_geodesic_point_not_unit :
    sqNorm (⟨0, 3 / 5, 4 / 5⟩ : Float3) = 1
      ∧ sqNorm (⟨0, 1, 0⟩ : Float3) = 1
      ∧ sqNorm ((writeGeodesic ⟨0, 3 / 5, 4 / 5⟩ ⟨0, 1, 0⟩ 2).getD 1 ⟨0, 0, 0⟩) < 1 := by
  refine ⟨by norm_num [sqNorm, dot], by norm_num [sqNorm, dot], ?_⟩
  have hel : (writeGeodesic (⟨0, 3 / 5, 4 / 5⟩ : Float3) ⟨0, 1, 0⟩ 2).getD 1 ⟨0, 0, 0⟩
      = quaternionRotateVector
          (quaternionFromRotationAngle (cross ⟨0, 3 / 5, 4 / 5⟩ ⟨0, 1, 0⟩)
            (Real.arccos (dot ⟨0, 3 / 5, 4 / 5⟩ ⟨0, 1, 0⟩) / 2))
          ⟨0, 3 / 5, 4 / 5⟩ := by
    unfold writeGeodesic
    norm_num [List.getD, List.range_succ]
  rw [hel, sqNorm_geodesic_rotate _ _ _ (by norm_num [sqNorm, dot])]
  have hS : sqNorm (cross (⟨0, 3 / 5, 4 / 5⟩ : Float3) ⟨0, 1, 0⟩) = 16 / 25 := by
    norm_num [cross, sqNorm, dot]
  have hd : dot (⟨0, 3 / 5, 4 / 5⟩ : Float3) ⟨0, 1, 0⟩ = 3 / 5 := by
    norm_num [dot]
  rw [hS, hd]
  have harc1 : 0 < Real.arccos (3 / 5) := Real.arccos_pos.mpr (by norm_num)
  have harc2 : Real.arccos (3 / 5) ≤ Real.pi := Real.arccos_le_pi (3 / 5)
  have hsin : 0 < Real.sin (0.5 * (Real.arccos (3 / 5) / 2)) := by
    apply Real.sin_pos_of_pos_of_lt_pi
    · nlinarith
    · nlinarith [Real.pi_pos]
  nlinarith [pow_pos hsin 4]

theorem Float3.mk_eta (v : Float3) : (⟨v.x, v.y, v.z⟩ : Float3) = v := rfl

/-- Claim C6 fails on the code (code bug): for `radius = 1`,
`dimensions = (0,0,0)` and subdivision level 2, the position at index 6 (the
first interpolated point of the second geodesic row, with `theta = pi/8`) has
squared norm strictly below 1, so its magnitude is not `radius` even though
the pure-sphere case promises all positions at distance `radius`.  The cause
is the un-normalized rotation axis in `writeGeodesic`. -/
theorem c6_sphere_position_magnitude_deviates :
    sqNorm ((octaspherePositions ⟨0, 0, 0⟩ 1 2).getD 6 ⟨0, 0, 0⟩) < 1 := by
  have hsc := Real.sin_sq_add_cos_sq (FPI * 0.5 / 4)
  have hel : (octaspherePositions ⟨0, 0, 0⟩ 1 2).getD 6 ⟨0, 0, 0⟩
      = quaternionRotateVector
          (quaternionFromRotationAngle
            (cross ⟨0, Real.sin (FPI * 0.5 / 4), Real.cos (FPI * 0.5 / 4)⟩
              ⟨Real.cos (FPI * 0.5 / 4), Real.sin (FPI * 0.5 / 4), 0⟩)
            (Real.arccos (dot ⟨0, Real.sin (FPI * 0.5 / 4), Real.cos (FPI * 0.5 / 4)⟩
              ⟨Real.cos (FPI * 0.5 / 4), Real.sin (FPI * 0.5 / 4), 0⟩) / 3))
          ⟨0, Real.sin (FPI * 0.5 / 4), Real.cos (FPI * 0.5 / 4)⟩ := by
    show (applyScale (unitSphereLevel 2) 1).getD 6 ⟨0, 0, 0⟩ = _
    unfold applyScale unitSphereLevel unitSpherePatch writeGeodesic verticesPerLine
    norm_num [List.range_succ, List.getD, Float3.mk_eta]
  rw [hel,
    sqNorm_geodesic_rotate _ _ _ (by
      simp only [sqNorm, dot]
      linear_combination hsc)]
  have hd : dot (⟨0, Real.sin (FPI * 0.5 / 4), Real.cos (FPI * 0.5 / 4)⟩ : Float3)
      ⟨Real.cos (FPI * 0.5 / 4), Real.sin (FPI * 0.5 / 4), 0⟩
      = Real.sin (FPI * 0.5 / 4) ^ 2 := by
    simp only [dot]
    ring
  have hS : sqNorm (cross (⟨0, Real.sin (FPI * 0.5 / 4), Real.cos (FPI * 0.5 / 4)⟩ : Float3)
      ⟨Real.cos (FPI * 0.5 / 4), Real.sin (FPI * 0.5 / 4), 0⟩)
      = 1 - Real.sin (FPI * 0.5 / 4) ^ 4 := by
    simp only [cross, sqNorm, dot]
    linear_combination (Real.sin (FPI * 0.5 / 4) ^ 2 + Real.cos (FPI * 0.5 / 4) ^ 2 + 1) * hsc
  rw [hd, hS]
  have hpi := Real.pi_pos
  have ht1 : 0 < FPI * 0.5 / 4 := by unfold FPI; linarith
  have ht2 : FPI * 0.5 / 4 < Real.pi / 2 := by unfold FPI; linarith
  have hs : 0 < Real.sin (FPI * 0.5 / 4) := by
    apply Real.sin_pos_of_pos_of_lt_pi ht1
    unfold FPI at *
    linarith
  have hc : 0 < Real.cos (FPI * 0.5 / 4) := by
    apply Real.cos_pos_of_mem_Ioo
    constructor
    · unfold FPI at *; linarith
    · exact ht2
  have hslt : Real.sin (FPI * 0.5 / 4) ^ 2 < 1 := by nlinarith
  have harc1 : 0 < Real.arccos (Real.sin (FPI * 0.5 / 4) ^ 2) := Real.arccos_pos.mpr hslt
  have harc2 : Real.arccos (Real.sin (FPI * 0.5 / 4) ^ 2) ≤ Real.pi :=
    Real.arccos_le_pi _
  have hsin : 0 < Real.sin (0.5 * (Real.arccos (Real.sin (FPI * 0.5 / 4) ^ 2) / 3)) := by
    apply Real.sin_pos_of_pos_of_lt_pi
    · nlinarith
    · nlinarith
  have hs4 : 0 < Real.sin (FPI * 0.5 / 4) ^ 4 := pow_pos hs 4
  have hs4lt : Real.sin (FPI * 0.5 / 4) ^ 4 < 1 := by nlinarith
  have hfac : 0 < 4 * Real.sin (0.5 * (Real.arccos (Real.sin (FPI * 0.5 / 4) ^ 2) / 3)) ^ 4
      * (1 - Real.sin (FPI * 0.5 / 4) ^ 4) * (1 - (1 - Real.sin (FPI * 0.5 / 4) ^ 4)) := by
    have h1 : 0 < 1 - Real.sin (FPI * 0.5 / 4) ^ 4 := by linarith
    have h2 : 0 < 1 - (1 - Real.sin (FPI * 0.5 / 4) ^ 4) := by linarith
    have h3 : 0 < (4 : ℝ) *
        Real.sin (0.5 * (Real.arccos (Real.sin (FPI * 0.5 / 4) ^ 2) / 3)) ^ 4 := by
      have := pow_pos hsin 4
      linarith
    exact mul_pos (mul_pos h3 h1) h2
  linarith

theorem unitSpherePatch_level0 :
    unitSpherePatch (verticesPerLine 0) = [⟨0, 0, 1⟩, ⟨1, 0, 0⟩, ⟨0, 1, 0⟩] := by
  unfold unitSpherePatch writeGeodesic verticesPerLine
  norm_num [List.range_succ]
  rw [show FPI * (1 / 2 : ℝ) = Real.pi / 2 by unfold FPI; ring]
  exact ⟨Real.sin_pi_div_two, Real.cos_pi_div_two⟩

theorem octantQuat_1 : octantQuat 1 = ⟨0, Real.sqrt 2 / 2, 0, Real.sqrt 2 / 2⟩ := by
  simp only [octantQuat, octantsTable, quaternionFromEulers, Float3.smul, FPI]
  rw [show (0:ℝ) * 0.5 * Real.pi * 0.5 = 0 by ring,
      show (1:ℝ) * 0.5 * Real.pi * 0.5 = Real.pi / 4 by ring]
  rw [Real.sin_zero, Real.cos_zero, Real.sin_pi_div_four, Real.cos_pi_div_four]
  simp only [Float4.mk.injEq]
  norm_num

theorem octantQuat_2 : octantQuat 2 = ⟨0, 1, 0, 0⟩ := by
  simp only [octantQuat, octantsTable, quaternionFromEulers, Float3.smul, FPI]
  rw [show (0:ℝ) * 0.5 * Real.pi * 0.5 = 0 by ring,
      show (2:ℝ) * 0.5 * Real.pi * 0.5 = Real.pi / 2 by ring]
  rw [Real.sin_zero, Real.cos_zero, Real.sin_pi_div_two, Real.cos_pi_div_two]
  simp only [Float4.mk.injEq]
  norm_num

theorem octantQuat_3 : octantQuat 3 = ⟨0, Real.sqrt 2 / 2, 0, -(Real.sqrt 2 / 2)⟩ := by
  simp only [octantQuat, octantsTable, quaternionFromEulers, Float3.smul, FPI]
  rw [show (0:ℝ) * 0.5 * Real.pi * 0.5 = 0 by ring,
      show (3:ℝ) * 0.5 * Real.pi * 0.5 = Real.pi - Real.pi / 4 by ring]
  rw [Real.sin_pi_sub, Real.cos_pi_sub, Real.sin_zero, Real.cos_zero,
      Real.sin_pi_div_four, Real.cos_pi_div_four]
  simp only [Float4.mk.injEq]
  norm_num

theorem octantQuat_4 : octantQuat 4 = ⟨Real.sqrt 2 / 2, 0, 0, Real.sqrt 2 / 2⟩ := by
  simp only [octantQuat, octantsTable, quaternionFromEulers, Float3.smul, FPI]
  rw [show (0:ℝ) * 0.5 * Real.pi * 0.5 = 0 by ring,
      show (1:ℝ) * 0.5 * Real.pi * 0.5 = Real.pi / 4 by ring]
  rw [Real.sin_zero, Real.cos_zero, Real.sin_pi_div_four, Real.cos_pi_div_four]
  simp only [Float4.mk.injEq]
  norm_num

theorem octantQuat_5 : octantQuat 5 = ⟨1/2, -(1/2), 1/2, 1/2⟩ := by
  simp only [octantQuat, octantsTable, quaternionFromEulers, Float3.smul, FPI]
  rw [show (0:ℝ) * 0.5 * Real.pi * 0.5 = 0 by ring,
      show (1:ℝ) * 0.5 * Real.pi * 0.5 = Real.pi / 4 by ring]
  rw [Real.sin_zero, Real.cos_zero, Real.sin_pi_div_four, Real.cos_pi_div_four]
  simp only [Float4.mk.injEq]
  refine ⟨?_, ?_, ?_, ?_⟩ <;>
    linarith [Real.mul_self_sqrt (show (0:ℝ) ≤ 2 by norm_num)]

theorem octantQuat_6 : octantQuat 6 = ⟨0, -(Real.sqrt 2 / 2), Real.sqrt 2 / 2, 0⟩ := by
  simp only [octantQuat, octantsTable, quaternionFromEulers, Float3.smul, FPI]
  rw [show (0:ℝ) * 0.5 * Real.pi * 0.5 = 0 by ring,
      show (1:ℝ) * 0.5 * Real.pi * 0.5 = Real.pi / 4 by ring,
      show (2:ℝ) * 0.5 * Real.pi * 0.5 = Real.pi / 2 by ring]
  rw [Real.sin_zero, Real.cos_zero, Real.sin_pi_div_four, Real.cos_pi_div_four,
      Real.sin_pi_div_two, Real.cos_pi_div_two]
  simp only [Float4.mk.injEq]
  norm_num

theorem octantQuat_7 : octantQuat 7 = ⟨-(1/2), -(1/2), 1/2, -(1/2)⟩ := by
  simp only [octantQuat, octantsTable, quaternionFromEulers, Float3.smul, FPI]
  rw [show (0:ℝ) * 0.5 * Real.pi * 0.5 = 0 by ring,
      show (1:ℝ) * 0.5 * Real.pi * 0.5 = Real.pi / 4 by ring,
      show (3:ℝ) * 0.5 * Real.pi * 0.5 = Real.pi - Real.pi / 4 by ring]
  rw [Real.sin_pi_sub, Real.cos_pi_sub, Real.sin_zero, Real.cos_zero,
      Real.sin_pi_div_four, Real.cos_pi_div_four]
  simp only [Float4.mk.injEq]
  refine ⟨?_, ?_, ?_, ?_⟩ <;>
    linarith [Real.mul_self_sqrt (show (0:ℝ) ≤ 2 by norm_num)]

theorem rotQ1_v0 :
    quaternionRotateVector ⟨0, Real.sqrt 2 / 2, 0, Real.sqrt 2 / 2⟩ ⟨0, 0, 1⟩ = ⟨1, 0, 0⟩ := by
  simp only [quaternionRotateVector, cross, Float4.xyz, Float3.smul, Float3.add,
    Float3.mk.injEq]
  refine ⟨?_, ?_, ?_⟩ <;>
    linarith [Real.mul_self_sqrt (show (0:ℝ) ≤ 2 by norm_num)]

theorem rotQ1_v1 :
    quaternionRotateVector ⟨0, Real.sqrt 2 / 2, 0, Real.sqrt 2 / 2⟩ ⟨1, 0, 0⟩ = ⟨0, 0, -1⟩ := by
  simp only [quaternionRotateVector, cross, Float4.xyz, Float3.smul, Float3.add,
    Float3.mk.injEq]
  refine ⟨?_, ?_, ?_⟩ <;>
    linarith [Real.mul_self_sqrt (show (0:ℝ) ≤ 2 by norm_num)]

theorem rotQ1_v2 :
    quaternionRotateVector ⟨0, Real.sqrt 2 / 2, 0, Real.sqrt 2 / 2⟩ ⟨0, 1, 0⟩ = ⟨0, 1, 0⟩ := by
  simp only [quaternionRotateVector, cross, Float4.xyz, Float3.smul, Float3.add,
    Float3.mk.injEq]
  refine ⟨?_, ?_, ?_⟩ <;>
    linarith [Real.mul_self_sqrt (show (0:ℝ) ≤ 2 by norm_num)]

theorem rotQ2_v0 :
    quaternionRotateVector ⟨0, 1, 0, 0⟩ ⟨0, 0, 1⟩ = ⟨0, 0, -1⟩ := by
  simp only [quaternionRotateVector, cross, Float4.xyz, Float3.smul, Float3.add,
    Float3.mk.injEq]
  refine ⟨?_, ?_, ?_⟩ <;> norm_num

theorem rotQ2_v1 :
    quaternionRotateVector ⟨0, 1, 0, 0⟩ ⟨1, 0, 0⟩ = ⟨-1, 0, 0⟩ := by
  simp only [quaternionRotateVector, cross, Float4.xyz, Float3.smul, Float3.add,
    Float3.mk.injEq]
  refine ⟨?_, ?_, ?_⟩ <;> norm_num

theorem rotQ2_v2 :
    quaternionRotateVector ⟨0, 1, 0, 0⟩ ⟨0, 1, 0⟩ = ⟨0, 1, 0⟩ := by
  simp only [quaternionRotateVector, cross, Float4.xyz, Float3.smul, Float3.add,
    Float3.mk.injEq]
  refine ⟨?_, ?_, ?_⟩ <;> norm_num

theorem rotQ3_v0 :
    quaternionRotateVector ⟨0, Real.sqrt 2 / 2, 0, -(Real.sqrt 2 / 2)⟩ ⟨0, 0, 1⟩
      = ⟨-1, 0, 0⟩ := by
  simp only [quaternionRotateVector, cross, Float4.xyz, Float3.smul, Float3.add,
    Float3.mk.injEq]
  refine ⟨?_, ?_, ?_⟩ <;>
    linarith [Real.mul_self_sqrt (show (0:ℝ) ≤ 2 by norm_num)]

theorem rotQ3_v1 :
    quaternionRotateVector ⟨0, Real.sqrt 2 / 2, 0, -(Real.sqrt 2 / 2)⟩ ⟨1, 0, 0⟩
      = ⟨0, 0, 1⟩ := by
  simp only [quaternionRotateVector, cross, Float4.xyz, Float3.smul, Float3.add,
    Float3.mk.injEq]
  refine ⟨?_, ?_, ?_⟩ <;>
    linarith [Real.mul_self_sqrt (show (0:ℝ) ≤ 2 by norm_num)]

theorem rotQ3_v2 :
    quaternionRotateVector ⟨0, Real.sqrt 2 / 2, 0, -(Real.sqrt 2 / 2)⟩ ⟨0, 1, 0⟩
      = ⟨0, 1, 0⟩ := by
  simp only [quaternionRotateVector, cross, Float4.xyz, Float3.smul, Float3.add,
    Float3.mk.injEq]
  refine ⟨?_, ?_, ?_⟩ <;>
    linarith [Real.mul_self_sqrt (show (0:ℝ) ≤ 2 by norm_num)]

theorem rotQ4_v0 :
    quaternionRotateVector ⟨Real.sqrt 2 / 2, 0, 0, Real.sqrt 2 / 2⟩ ⟨0, 0, 1⟩
      = ⟨0, -1, 0⟩ := by
  simp only [quaternionRotateVector, cross, Float4.xyz, Float3.smul, Float3.add,
    Float3.mk.injEq]
  refine ⟨?_, ?_, ?_⟩ <;>
    linarith [Real.mul_self_sqrt (show (0:ℝ) ≤ 2 by norm_num)]

theorem rotQ4_v1 :
    quaternionRotateVector ⟨Real.sqrt 2 / 2, 0, 0, Real.sqrt 2 / 2⟩ ⟨1, 0, 0⟩
      = ⟨1, 0, 0⟩ := by
  simp only [quaternionRotateVector, cross, Float4.xyz, Float3.smul, Float3.add,
    Float3.mk.injEq]
  refine ⟨?_, ?_, ?_⟩ <;>
    linarith [Real.mul_self_sqrt (show (0:ℝ) ≤ 2 by norm_num)]

theorem rotQ4_v2 :
    quaternionRotateVector ⟨Real.sqrt 2 / 2, 0, 0, Real.sqrt 2 / 2⟩ ⟨0, 1, 0⟩
      = ⟨0, 0, 1⟩ := by
  simp only [quaternionRotateVector, cross, Float4.xyz, Float3.smul, Float3.add,
    Float3.mk.injEq]
  refine ⟨?_, ?_, ?_⟩ <;>
    linarith [Real.mul_self_sqrt (show (0:ℝ) ≤ 2 by norm_num)]

theorem rotQ5_v0 :
    quaternionRotateVector ⟨1/2, -(1/2), 1/2, 1/2⟩ ⟨0, 0, 1⟩ = ⟨0, -1, 0⟩ := by
  simp only [quaternionRotateVector, cross, Float4.xyz, Float3.smul, Float3.add,
    Float3.mk.injEq]
  refine ⟨?_, ?_, ?_⟩ <;> norm_num

theorem rotQ5_v1 :
    quaternionRotateVector ⟨1/2, -(1/2), 1/2, 1/2⟩ ⟨1, 0, 0⟩ = ⟨0, 0, 1⟩ := by
  simp only [quaternionRotateVector, cross, Float4.xyz, Float3.smul, Float3.add,
    Float3.mk.injEq]
  refine ⟨?_, ?_, ?_⟩ <;> norm_num

theorem rotQ5_v2 :
    quaternionRotateVector ⟨1/2, -(1/2), 1/2, 1/2⟩ ⟨0, 1, 0⟩ = ⟨-1, 0, 0⟩ := by
  simp only [quaternionRotateVector, cross, Float4.xyz, Float3.smul, Float3.add,
    Float3.mk.injEq]
  refine ⟨?_, ?_, ?_⟩ <;> norm_num

theorem rotQ6_v0 :
    quaternionRotateVector ⟨0, -(Real.sqrt 2 / 2), Real.sqrt 2 / 2, 0⟩ ⟨0, 0, 1⟩
      = ⟨0, -1, 0⟩ := by
  simp only [quaternionRotateVector, cross, Float4.xyz, Float3.smul, Float3.add,
    Float3.mk.injEq]
  refine ⟨?_, ?_, ?_⟩ <;>
    linarith [Real.mul_self_sqrt (show (0:ℝ) ≤ 2 by norm_num)]

theorem rotQ6_v1 :
    quaternionRotateVector ⟨0, -(Real.sqrt 2 / 2), Real.sqrt 2 / 2, 0⟩ ⟨1, 0, 0⟩
      = ⟨-1, 0, 0⟩ := by
  simp only [quaternionRotateVector, cross, Float4.xyz, Float3.smul, Float3.add,
    Float3.mk.injEq]
  refine ⟨?_, ?_, ?_⟩ <;>
    linarith [Real.mul_self_sqrt (show (0:ℝ) ≤ 2 by norm_num)]

theorem rotQ6_v2 :
    quaternionRotateVector ⟨0, -(Real.sqrt 2 / 2), Real.sqrt 2 / 2, 0⟩ ⟨0, 1, 0⟩
      = ⟨0, 0, -1⟩ := by
  simp only [quaternionRotateVector, cross, Float4.xyz, Float3.smul, Float3.add,
    Float3.mk.injEq]
  refine ⟨?_, ?_, ?_⟩ <;>
    linarith [Real.mul_self_sqrt (show (0:ℝ) ≤ 2 by norm_num)]

theorem rotQ7_v0 :
    quaternionRotateVector ⟨-(1/2), -(1/2), 1/2, -(1/2)⟩ ⟨0, 0, 1⟩ = ⟨0, -1, 0⟩ := by
  simp only [quaternionRotateVector, cross, Float4.xyz, Float3.smul, Float3.add,
    Float3.mk.injEq]
  refine ⟨?_, ?_, ?_⟩ <;> norm_num

theorem rotQ7_v1 :
    quaternionRotateVector ⟨-(1/2), -(1/2), 1/2, -(1/2)⟩ ⟨1, 0, 0⟩ = ⟨0, 0, -1⟩ := by
  simp only [quaternionRotateVector, cross, Float4.xyz, Float3.smul, Float3.add,
    Float3.mk.injEq]
  refine ⟨?_, ?_, ?_⟩ <;> norm_num

theorem rotQ7_v2 :
    quaternionRotateVector ⟨-(1/2), -(1/2), 1/2, -(1/2)⟩ ⟨0, 1, 0⟩ = ⟨1, 0, 0⟩ := by
  simp only [quaternionRotateVector, cross, Float4.xyz, Float3.smul, Float3.add,
    Float3.mk.injEq]
  refine ⟨?_, ?_, ?_⟩ <;> norm_num
theorem unitSphereLevel0_eq :
    unitSphereLevel 0 =
      [⟨0, 0, 1⟩, ⟨1, 0, 0⟩, ⟨0, 1, 0⟩,
       ⟨1, 0, 0⟩, ⟨0, 0, -1⟩, ⟨0, 1, 0⟩,
       ⟨0, 0, -1⟩, ⟨-1, 0, 0⟩, ⟨0, 1, 0⟩,
       ⟨-1, 0, 0⟩, ⟨0, 0, 1⟩, ⟨0, 1, 0⟩,
       ⟨0, -1, 0⟩, ⟨1, 0, 0⟩, ⟨0, 0, 1⟩,
       ⟨0, -1, 0⟩, ⟨0, 0, 1⟩, ⟨-1, 0, 0⟩,
       ⟨0, -1, 0⟩, ⟨-1, 0, 0⟩, ⟨0, 0, -1⟩,
       ⟨0, -1, 0⟩, ⟨0, 0, -1⟩, ⟨1, 0, 0⟩] := by
  simp only [unitSphereLevel]
  rw [unitSpherePatch_level0, show verticesPerPatch 0 = 3 from rfl]
  norm_num [List.range_succ, List.getD, octantQuat_1, octantQuat_2, octantQuat_3,
    octantQuat_4, octantQuat_5, octantQuat_6, octantQuat_7,
    rotQ1_v0, rotQ1_v1, rotQ1_v2, rotQ2_v0, rotQ2_v1, rotQ2_v2,
    rotQ3_v0, rotQ3_v1, rotQ3_v2, rotQ4_v0, rotQ4_v1, rotQ4_v2,
    rotQ5_v0, rotQ5_v1, rotQ5_v2, rotQ6_v0, rotQ6_v1, rotQ6_v2,
    rotQ7_v0, rotQ7_v1, rotQ7_v2]

theorem octaspherePositions_level0_eq :
    octaspherePositions ⟨0, 0, 0⟩ 1 0 =
      [⟨0, 0, 1⟩, ⟨1, 0, 0⟩, ⟨0, 1, 0⟩,
       ⟨1, 0, 0⟩, ⟨0, 0, -1⟩, ⟨0, 1, 0⟩,
       ⟨0, 0, -1⟩, ⟨-1, 0, 0⟩, ⟨0, 1, 0⟩,
       ⟨-1, 0, 0⟩, ⟨0, 0, 1⟩, ⟨0, 1, 0⟩,
       ⟨0, -1, 0⟩, ⟨1, 0, 0⟩, ⟨0, 0, 1⟩,
       ⟨0, -1, 0⟩, ⟨0, 0, 1⟩, ⟨-1, 0, 0⟩,
       ⟨0, -1, 0⟩, ⟨-1, 0, 0⟩, ⟨0, 0, -1⟩,
       ⟨0, -1, 0⟩, ⟨0, 0, -1⟩, ⟨1, 0, 0⟩] := by
  show applyScale (unitSphereLevel 0) 1 = _
  rw [unitSphereLevel0_eq]
  norm_num [applyScale]

/-- Claim C1, amended: for subdivision level 0 (radius 1, zero dimensions)
`generateOctasphere` returns a mesh with `numVertices = 24` (8 patches of 3
vertices each, seam vertices duplicated), and the resulting vertex positions
are exactly those of a regular octahedron: every generated position is one of
the six octahedron vertices, and all six octahedron vertices occur. -/
theorem c1_level0_octahedron_amended :
    (generateOctasphere ⟨0, 0, 0⟩ 1 0).numVertices = 24
      ∧ (∀ v ∈ octaspherePositions ⟨0, 0, 0⟩ 1 0, v ∈ octahedronVertices)
      ∧ (∀ v ∈ octahedronVertices, v ∈ octaspherePositions ⟨0, 0, 0⟩ 1 0) := by
  refine ⟨rfl, ?_, ?_⟩
  · rw [octaspherePositions_level0_eq]
    intro v hv
    fin_cases hv <;> norm_num [octahedronVertices]
  · rw [octaspherePositions_level0_eq]
    intro v hv
    fin_cases hv <;> norm_num


/-- Counterexample to claim C1 as stated: at subdivision level 0 the mesh has
24 vertices (3 per patch, 8 patches, seam vertices duplicated), not 8. -/
theorem c1_level0_vertex_count_counterexample :
    (generateOctasphere ⟨0, 0, 0⟩ 1 0).numVertices = 24
      ∧ (generateOctasphere ⟨0, 0, 0⟩ 1 0).numVertices ≠ 8 := by
  exact ⟨rfl, by decide⟩

end Octasphere
